import Mathlib

/-!
Shallow embedding of the auto-labeler track/frame review engine.

The repository ships the React frontend (`auto-labeler/frontend/src`), whose
types (`types.ts`) and client-side cache transformations (`FrameViewer`,
`TrackList.tsx`) are translated here directly.  The FastAPI backend that
implements the persistence/concurrency/track-state endpoints is not part of
these sources; the definitions whose doc comments start with
`Modelled from the spec:` reconstruct those operations from the
specification's words.
-/

namespace AutoLabeler

/-- Review status of one annotation, from `types.ts` (`AnnotationStatus`). -/
inductive AnnotationStatus where
  | accepted
  | rejected
  | abandoned
  | unreviewed
deriving DecidableEq, Repr

/-- Precomputed blur classification, from `types.ts` (`BlurDecision`). -/
inductive BlurDecision where
  | sharp
  | blurry
deriving DecidableEq, Repr

/-- Blur filter for sweeps and queries, from `types.ts` (`BlurFilter`). -/
inductive BlurFilter where
  | all
  | sharp
  | blurry
deriving DecidableEq, Repr

/-- Container for the fallback blur decision consulted by
`getAnnotationBlurDecision` (`blur_metrics?.blur_decision` in `FrameViewer`). -/
structure BlurMetrics where
  blur_decision : Option BlurDecision
deriving DecidableEq, Repr

/-- Bounding box in pixel units, from `types.ts` (`BBox`). -/
structure BBox where
  x : Int
  y : Int
  width : Int
  height : Int
deriving DecidableEq, Repr

/-- One bounding-box detection, from `types.ts` (`Annotation`). -/
structure Annotation where
  annotation_id : String
  track_tag : Option String
  category_name : String
  bbox : BBox
  status : AnnotationStatus
  person_down : Option Bool
  blur_decision : Option BlurDecision
  blur_metrics : Option BlurMetrics
deriving DecidableEq, Repr

/-- Per-track frame projection, from `types.ts` (`TrackFrameEntry`). -/
structure TrackFrameEntry where
  frame_id : String
  frame_index : Nat
  filename : String
  gcs_uri : String
  image_url : String
  frame_version : Nat
  default_status : String
  annotations : List Annotation
  pending_annotations : Nat
  completed : Bool
  width : Option Nat
  height : Option Nat
  accepted_annotations : Nat
  rejected_annotations : Nat
  abandoned_annotations : Nat
  abandoned : Bool
deriving DecidableEq, Repr

/-- One row of the track list, from `types.ts` (`TrackListItem`). -/
structure TrackListItem where
  track_tag : String
  categories : List String
  primary_class : Option String
  person_down : Bool
  status : String
  total_annotations : Nat
  pending_annotations : Nat
  frame_count : Nat
  first_frame_index : Option Nat
  last_frame_index : Option Nat
  abandoned_from_frame : Option Nat
  completed : Bool
  manually_completed : Bool
deriving DecidableEq, Repr

/-- One annotation "patch", from `types.ts` (`TrackSample`). -/
structure TrackSample where
  annotation_id : String
  frame_id : String
  frame_index : Nat
  filename : String
  gcs_uri : String
  image_url : String
  bbox : BBox
  status : AnnotationStatus
  person_down : Option Bool
  blur_decision : Option BlurDecision
  blur_metrics : Option BlurMetrics
deriving DecidableEq, Repr

/-- Effective blur decision of one annotation, from `FrameViewer`
(`getAnnotationBlurDecision`):
`annotation.blur_decision ?? annotation.blur_metrics?.blur_decision ?? null`. -/
def getAnnotationBlurDecision (ann : Annotation) : Option BlurDecision :=
  (ann.blur_decision).orElse (fun _ => ann.blur_metrics.bind (fun m => m.blur_decision))

/-- Effective blur decision of one sample, from `FrameViewer`
(`getSampleBlurDecision`). -/
def getSampleBlurDecision (sample : TrackSample) : Option BlurDecision :=
  (sample.blur_decision).orElse (fun _ => sample.blur_metrics.bind (fun m => m.blur_decision))

/-- The blur test used by every sweep in `FrameViewer`:
`blurFilter === "all" || effectiveDecision === blurFilter`. -/
def blurMatches (filter : BlurFilter) (d : Option BlurDecision) : Bool :=
  match filter with
  | BlurFilter.all => true
  | BlurFilter.sharp => d == some BlurDecision.sharp
  | BlurFilter.blurry => d == some BlurDecision.blurry

/-- The tally block repeated in `updateAnnotationStatus`,
`handleAcceptFromFrame` and `handleRecoverTrack` of `FrameViewer`: spread the
frame, replace the annotation list and recompute the four status counters and
`completed = pending === 0`. -/
def recountFrame (frame : TrackFrameEntry) (anns : List Annotation) : TrackFrameEntry :=
  let pending := (anns.filter (fun a => a.status == AnnotationStatus.unreviewed)).length
  let accepted := (anns.filter (fun a => a.status == AnnotationStatus.accepted)).length
  let rejected := (anns.filter (fun a => a.status == AnnotationStatus.rejected)).length
  let abandonedCount := (anns.filter (fun a => a.status == AnnotationStatus.abandoned)).length
  { frame with
      annotations := anns,
      pending_annotations := pending,
      accepted_annotations := accepted,
      rejected_annotations := rejected,
      abandoned_annotations := abandonedCount,
      completed := pending == 0 }

/-- Per-annotation step of `handleAcceptFromFrame`'s frames-cache update:
`frame.frame_index >= fromIndex && matchesBlur` sets status `accepted`. -/
def sweepAcceptAnn (filter : BlurFilter) (fromIndex frameIndex : Nat) (ann : Annotation) : Annotation :=
  let matchesBlur := blurMatches filter (getAnnotationBlurDecision ann)
  if decide (fromIndex ≤ frameIndex) && matchesBlur then
    { ann with status := AnnotationStatus.accepted }
  else ann

/-- Per-annotation step of `handleRecoverTrack`'s frames-cache update: only
annotations currently `abandoned` in range and matching the filter are reset
to `unreviewed`. -/
def sweepRecoverAnn (filter : BlurFilter) (fromIndex frameIndex : Nat) (ann : Annotation) : Annotation :=
  let matchesBlur := blurMatches filter (getAnnotationBlurDecision ann)
  if decide (fromIndex ≤ frameIndex) && matchesBlur && (ann.status == AnnotationStatus.abandoned) then
    { ann with status := AnnotationStatus.unreviewed }
  else ann

/-- Per-frame step of `handleAcceptFromFrame`'s frames-cache update. -/
def acceptFrameEntry (filter : BlurFilter) (fromIndex : Nat) (frame : TrackFrameEntry) : TrackFrameEntry :=
  if frame.frame_index < fromIndex then frame
  else recountFrame frame (frame.annotations.map (sweepAcceptAnn filter fromIndex frame.frame_index))

/-- Per-frame step of `handleRecoverTrack`'s frames-cache update. -/
def recoverFrameEntry (filter : BlurFilter) (fromIndex : Nat) (frame : TrackFrameEntry) : TrackFrameEntry :=
  if frame.frame_index < fromIndex then frame
  else recountFrame frame (frame.annotations.map (sweepRecoverAnn filter fromIndex frame.frame_index))

/-- Samples-cache update shared by the abandon/accept/recover handlers in
`FrameViewer`: samples at `frame_index >= fromIndex` matching the blur filter
get the sweep's status. -/
def sweepSamples (newStatus : AnnotationStatus) (filter : BlurFilter) (fromIndex : Nat)
    (samples : List TrackSample) : List TrackSample :=
  samples.map (fun sample =>
    if decide (fromIndex ≤ sample.frame_index) && blurMatches filter (getSampleBlurDecision sample) then
      { sample with status := newStatus }
    else sample)

/-- Targeted single-frame patch of `updateAnnotationStatus` in `FrameViewer`:
rewrite the matching annotation's status and recompute the tallies. -/
def patchFrameStatus (annotationId : String) (status : AnnotationStatus)
    (frame : TrackFrameEntry) : TrackFrameEntry :=
  recountFrame frame
    (frame.annotations.map (fun ann =>
      if ann.annotation_id == annotationId then { ann with status := status } else ann))

/-- JavaScript `Array.prototype.map` with the element index, as used by
`existing?.map((frame, idx) => ...)` in `updateAnnotationStatus`. -/
def mapWithIndex {α : Type} (f : Nat → α → α) : Nat → List α → List α
  | _, [] => []
  | i, a :: rest => f i a :: mapWithIndex f (i + 1) rest

/-- Frames-cache update of `updateAnnotationStatus`: every index other than
the targeted one returns the frame unchanged. -/
def updateAnnotationStatusFrames (targetIdx : Nat) (annotationId : String)
    (status : AnnotationStatus) (frames : List TrackFrameEntry) : List TrackFrameEntry :=
  mapWithIndex
    (fun idx frame => if idx != targetIdx then frame else patchFrameStatus annotationId status frame)
    0 frames

/-- The three client caches touched by the `FrameViewer` handlers: the
`track-frames`, `track-samples` and `tracks` query data for the selected
track. -/
structure ClientCache where
  frames : List TrackFrameEntry
  samples : List TrackSample
  tracks : List TrackListItem
deriving DecidableEq, Repr

/-- Cache effect of `handleAcceptFromFrame` in `FrameViewer`: it rewrites the
samples and frames caches and performs no write on the tracks cache (it only
invalidates it). -/
def handleAcceptFromFrameCache (filter : BlurFilter) (fromIndex : Nat)
    (cache : ClientCache) : ClientCache :=
  { cache with
      samples := sweepSamples AnnotationStatus.accepted filter fromIndex cache.samples,
      frames := cache.frames.map (acceptFrameEntry filter fromIndex) }

/-- Cache effect of `handleAbandonTrack` in `FrameViewer`: only the samples
cache is rewritten. -/
def handleAbandonTrackCache (filter : BlurFilter) (fromIndex : Nat)
    (cache : ClientCache) : ClientCache :=
  { cache with
      samples := sweepSamples AnnotationStatus.abandoned filter fromIndex cache.samples }

/-- Tracks-cache update of `handleRecoverTrack`: the selected track gets
`status: "active"` and `abandoned_from_frame: null` together. -/
def recoverTracksCacheUpdate (selectedTrack : String)
    (tracks : List TrackListItem) : List TrackListItem :=
  tracks.map (fun track =>
    if track.track_tag == selectedTrack then
      { track with status := "active", abandoned_from_frame := none }
    else track)

/-- Cache effect of `handleRecoverTrack` in `FrameViewer`. -/
def handleRecoverTrackCache (selectedTrack : String) (filter : BlurFilter) (fromIndex : Nat)
    (cache : ClientCache) : ClientCache :=
  { cache with
      samples := sweepSamples AnnotationStatus.unreviewed filter fromIndex cache.samples,
      frames := cache.frames.map (recoverFrameEntry filter fromIndex),
      tracks := recoverTracksCacheUpdate selectedTrack cache.tracks }

/-- Cache effect of `handleMarkComplete` in `FrameViewer`: only the selected
track's `manually_completed` flag is set. -/
def handleMarkCompleteCache (selectedTrack : String) (cache : ClientCache) : ClientCache :=
  { cache with
      tracks := cache.tracks.map (fun track =>
        if track.track_tag == selectedTrack then
          { track with manually_completed := true }
        else track) }

/-- Cache effect of `handleMarkIncomplete` in `FrameViewer`. -/
def handleMarkIncompleteCache (selectedTrack : String) (cache : ClientCache) : ClientCache :=
  { cache with
      tracks := cache.tracks.map (fun track =>
        if track.track_tag == selectedTrack then
          { track with manually_completed := false }
        else track) }

/-- Cache effect of `handleUpdateTrackClass` in `FrameViewer`. -/
def handleUpdateTrackClassCache (selectedTrack className : String)
    (cache : ClientCache) : ClientCache :=
  { cache with
      tracks := cache.tracks.map (fun track =>
        if track.track_tag == selectedTrack then
          { track with primary_class := some className }
        else track) }

/-- Track-list badge, from `TrackList.tsx` (`getBadge`). -/
structure Badge where
  label : String
  className : String
deriving DecidableEq, Repr

/-- `getBadge` from `TrackList.tsx`: abandoned wins, then manual completion,
then derived completion, else the remaining/total counter. -/
def getBadge (track : TrackListItem) (remaining total : Nat) : Badge :=
  if track.status == "abandoned" then
    { label := "Abandoned", className := "bg-amber-500/20 text-amber-300" }
  else if track.manually_completed then
    { label := "Completed", className := "bg-blue-500/20 text-blue-300" }
  else if track.completed then
    { label := "Reviewed", className := "bg-emerald-500/20 text-emerald-300" }
  else
    { label := toString remaining ++ "/" ++ toString total,
      className := "bg-slate-700/40 text-slate-300" }

/-- The fixed track-class enumeration, from `types.ts` (`TRACK_CLASSES`). -/
def TRACK_CLASSES : List String :=
  ["gun", "tablet", "person", "face_cover", "hat", "phone", "face"]

/-- Modelled from the spec: a stored frame document of the Persistence Store
(§3, §4.1); the FastAPI backend holding it is not among these sources. -/
structure FrameDoc where
  frame_id : String
  frame_index : Nat
  filename : String
  gcs_uri : String
  image_url : String
  frame_version : Nat
  annotations : List Annotation
deriving DecidableEq, Repr

/-- One per-annotation update of a single-frame save
(`{annotation_id, status, person_down?}`, §4.2 and `types.ts`
`FrameSavePayload`). -/
structure AnnotationUpdate where
  annotation_id : String
  status : AnnotationStatus
  person_down : Option Bool
deriving DecidableEq, Repr

/-- Failure of a single-frame save (§7: `VersionConflict`, HTTP 409). -/
inductive SaveError where
  | versionConflict
deriving DecidableEq, Repr

/-- Modelled from the spec: applying one update to its matching annotation
(§4.2); `person_down` is only overwritten when supplied. -/
def applyAnnUpdate (ann : Annotation) (u : AnnotationUpdate) : Annotation :=
  { ann with
      status := u.status,
      person_down := match u.person_down with
        | some b => some b
        | none => ann.person_down }

/-- Modelled from the spec: apply each update by `annotation_id`; ids not
found in the frame are ignored (§4.2 lenient-merge policy). -/
def applyAnnUpdates (anns : List Annotation) (updates : List AnnotationUpdate) : List Annotation :=
  updates.foldl
    (fun acc u =>
      acc.map (fun ann =>
        if ann.annotation_id == u.annotation_id then applyAnnUpdate ann u else ann))
    anns

/-- Modelled from the spec: the Concurrency Guard single-frame save (§4.2);
the backend endpoint `POST .../frames/{index}/save` is not among these
sources.  A stale `frame_version` fails with `VersionConflict`; otherwise the
updates are merged, `frame_version` increments by exactly 1 and the count of
annotations actually updated is reported. -/
def saveFrameOp (claimedVersion : Nat) (updates : List AnnotationUpdate)
    (frame : FrameDoc) : Except SaveError (FrameDoc × Nat × Nat) :=
  if claimedVersion != frame.frame_version then
    Except.error SaveError.versionConflict
  else
    let newAnns := applyAnnUpdates frame.annotations updates
    let updatedCount :=
      (updates.filter (fun u =>
        frame.annotations.any (fun ann => ann.annotation_id == u.annotation_id))).length
    Except.ok
      ({ frame with annotations := newAnns, frame_version := frame.frame_version + 1 },
        frame.frame_version + 1, updatedCount)

/-- Modelled from the spec: the save as seen through the store (§4.1 atomic
compare-and-swap): a rejected save leaves the stored frame untouched. -/
def saveFrameStore (frame : FrameDoc) (claimedVersion : Nat)
    (updates : List AnnotationUpdate) : FrameDoc × Except SaveError (Nat × Nat) :=
  match saveFrameOp claimedVersion updates frame with
  | Except.error e => (frame, Except.error e)
  | Except.ok (newFrame, newVersion, count) => (newFrame, Except.ok (newVersion, count))

/-- Modelled from the spec: a sequence of single-frame saves with correct
version chaining (§8): each save claims the frame's current version.  Returns
the final frame and the list of versions returned by the accepted saves. -/
def runChainedSaves : FrameDoc → List (List AnnotationUpdate) → FrameDoc × List Nat
  | frame, [] => (frame, [])
  | frame, updates :: rest =>
    match saveFrameOp frame.frame_version updates frame with
    | Except.ok (newFrame, newVersion, _) =>
      let r := runChainedSaves newFrame rest
      (r.1, newVersion :: r.2)
    | Except.error _ => runChainedSaves frame rest

/-- Modelled from the spec: stored track status (§4.3 states `active`,
`abandoned`). -/
inductive TrackStatus where
  | active
  | abandoned
deriving DecidableEq, Repr

/-- Modelled from the spec: a stored track document (§3); the backend holding
it is not among these sources. -/
structure TrackDoc where
  track_tag : String
  primary_class : Option String
  person_down : Bool
  status : TrackStatus
  abandoned_from_frame : Option Nat
  manually_completed : Bool
deriving DecidableEq, Repr

/-- Failure of `set_class` (§7: `InvalidClass`). -/
inductive SetClassError where
  | invalidClass
deriving DecidableEq, Repr

/-- Modelled from the spec: `set_class(track_tag, class_name)` (§4.3) sets
`primary_class` to one of the fixed enumerated classes and rejects values
outside the enumeration; the enumeration itself is `TRACK_CLASSES` from
`types.ts`. -/
def setClassOp (className : String) (track : TrackDoc) : Except SetClassError TrackDoc :=
  if TRACK_CLASSES.contains className then
    Except.ok { track with primary_class := some className }
  else
    Except.error SetClassError.invalidClass

/-- Modelled from the spec: `set_class` as seen through the store — a rejected
class name leaves the track entirely unchanged (§7). -/
def setClassStore (track : TrackDoc) (className : String) : TrackDoc × Except SetClassError Unit :=
  match setClassOp className track with
  | Except.error e => (track, Except.error e)
  | Except.ok newTrack => (newTrack, Except.ok ())

/-- Modelled from the spec: the Track State Machine operations on the stored
track fields (§4.3). -/
inductive TrackOp where
  | abandonFrom (fromFrameIndex : Nat)
  | acceptFrom (fromFrameIndex : Nat)
  | recoverFrom (fromFrameIndex : Nat)
  | markComplete
  | markIncomplete
  | setClass (className : String)
  | setPersonDown (value : Bool)
deriving DecidableEq, Repr

/-- Modelled from the spec: per-operation effect on the stored track fields
(§4.3): abandon sets `(abandoned, from_frame_index)` together, recover sets
`(active, null)` together, accept does not touch track status, the remaining
operations touch only their own field. -/
def applyTrackOp (op : TrackOp) (track : TrackDoc) : TrackDoc :=
  match op with
  | TrackOp.abandonFrom fromFrameIndex =>
    { track with status := TrackStatus.abandoned, abandoned_from_frame := some fromFrameIndex }
  | TrackOp.acceptFrom _ => track
  | TrackOp.recoverFrom _ =>
    { track with status := TrackStatus.active, abandoned_from_frame := none }
  | TrackOp.markComplete => { track with manually_completed := true }
  | TrackOp.markIncomplete => { track with manually_completed := false }
  | TrackOp.setClass className => (setClassStore track className).1
  | TrackOp.setPersonDown value => { track with person_down := value }

/-- The track-state invariant of §3: `abandoned` implies
`abandoned_from_frame` is set, `active` implies it is null. -/
def trackStateInv (track : TrackDoc) : Prop :=
  (track.status = TrackStatus.abandoned → (track.abandoned_from_frame).isSome = true)
  ∧ (track.status = TrackStatus.active → track.abandoned_from_frame = none)

/-- Modelled from the spec: the derived "completed" state of a track over its
annotations.  §3 and §8 of the spec disagree on whether `manually_completed`
enters the derivation; the frontend sources (`handleMarkComplete`'s cache
update sets only `manually_completed` and leaves `completed` untouched, and
`getBadge` distinguishes "Completed" from "Reviewed") treat `completed` as
annotation-derived only, so this model follows the §8 reading: true iff no
annotation of the track is `unreviewed`. -/
def trackCompleted (anns : List Annotation) : Bool :=
  anns.all (fun ann => ann.status != AnnotationStatus.unreviewed)

/-- The §3 reading of the claim, stated from the spec's words for comparison
with `trackCompleted`: derived completion OR `manually_completed`. -/
def claimDerivedCompleted (anns : List Annotation) (manuallyCompleted : Bool) : Bool :=
  anns.all (fun ann => ann.status != AnnotationStatus.unreviewed) || manuallyCompleted

/-- Modelled from the spec: whether an annotation qualifies for
`track_samples(batch_key, track_tag, limit, blur_filter)` (§4.4): it belongs
to the track and passes the blur-decision filter. -/
def qualifiesForTrack (trackTag : String) (filter : BlurFilter) (ann : Annotation) : Bool :=
  (ann.track_tag == some trackTag) && blurMatches filter ann.blur_decision

/-- Modelled from the spec: the sample "patch" built from an annotation and
its parent frame (§4.4: bounding-box crop referencing the parent frame's
resolved image URL). -/
def mkTrackSample (frame : FrameDoc) (ann : Annotation) : TrackSample :=
  { annotation_id := ann.annotation_id,
    frame_id := frame.frame_id,
    frame_index := frame.frame_index,
    filename := frame.filename,
    gcs_uri := frame.gcs_uri,
    image_url := frame.image_url,
    bbox := ann.bbox,
    status := ann.status,
    person_down := ann.person_down,
    blur_decision := ann.blur_decision,
    blur_metrics := ann.blur_metrics }

/-- Modelled from the spec: all qualifying samples of a track, collected frame
by frame in the store's `frame_index` order (§4.4). -/
def qualifyingSamples (trackTag : String) (filter : BlurFilter) : List FrameDoc → List TrackSample
  | [] => []
  | frame :: rest =>
    ((frame.annotations.filter (qualifiesForTrack trackTag filter)).map (mkTrackSample frame))
      ++ qualifyingSamples trackTag filter rest

/-- Result shape of `track_samples` (§4.4): the truncated patch list plus the
`total_count` of all qualifying annotations. -/
structure TrackSamplesResult where
  samples : List TrackSample
  total_count : Nat
deriving DecidableEq, Repr

/-- Modelled from the spec: `track_samples` (§4.4) returns up to `limit`
patches ordered by `frame_index` ascending, truncated — not sampled randomly —
at `limit`, and reports the `total_count` of all qualifying annotations
regardless of truncation; the backend endpoint is not among these sources. -/
def trackSamplesOp (frames : List FrameDoc) (trackTag : String) (limit : Nat)
    (filter : BlurFilter) : TrackSamplesResult :=
  { samples := (qualifyingSamples trackTag filter frames).take limit,
    total_count := (qualifyingSamples trackTag filter frames).length }

/-- Concrete annotation used by the claim-C1 witness. -/
def c1Ann : Annotation :=
  { annotation_id := "a1", track_tag := some "t1", category_name := "person",
    bbox := ⟨0, 0, 10, 10⟩, status := AnnotationStatus.unreviewed,
    person_down := some false, blur_decision := none, blur_metrics := none }

/-- Concrete stored frame used by the claim-C1 witness. -/
def c1Frame : FrameDoc :=
  { frame_id := "f0", frame_index := 0, filename := "0.jpg", gcs_uri := "",
    image_url := "", frame_version := 1, annotations := [c1Ann] }

/-- Concrete update used by the claim-C1 witness. -/
def c1Update : AnnotationUpdate :=
  { annotation_id := "a1", status := AnnotationStatus.accepted, person_down := some true }

/-- Concrete stored track used by the claim-C7 witness. -/
def c7Track : TrackDoc :=
  { track_tag := "t1", primary_class := none, person_down := false,
    status := TrackStatus.active, abandoned_from_frame := none,
    manually_completed := false }

/-- Concrete stored track used by the claim-C8 witness. -/
def c8Track : TrackDoc :=
  { track_tag := "t2", primary_class := none, person_down := false,
    status := TrackStatus.active, abandoned_from_frame := none,
    manually_completed := false }

/-- Concrete sharp rejected annotation in frame 0, for the claim-C2 witness. -/
def c2AnnA : Annotation :=
  { annotation_id := "a0", track_tag := some "t1", category_name := "person",
    bbox := ⟨0, 0, 5, 5⟩, status := AnnotationStatus.rejected,
    person_down := none, blur_decision := some BlurDecision.sharp, blur_metrics := none }

/-- Concrete unreviewed annotation in frame 1, for the claim-C2 witness. -/
def c2AnnB : Annotation :=
  { annotation_id := "a1", track_tag := some "t1", category_name := "person",
    bbox := ⟨1, 1, 5, 5⟩, status := AnnotationStatus.unreviewed,
    person_down := none, blur_decision := none, blur_metrics := none }

/-- Concrete track-frame entry at index 0, for the claim-C2 witness. -/
def c2Frame0 : TrackFrameEntry :=
  { frame_id := "f0", frame_index := 0, filename := "0.jpg", gcs_uri := "",
    image_url := "", frame_version := 3, default_status := "unreviewed",
    annotations := [c2AnnA], pending_annotations := 0, completed := true,
    width := none, height := none, accepted_annotations := 0,
    rejected_annotations := 1, abandoned_annotations := 0, abandoned := false }

/-- Concrete track-frame entry at index 1, for the claim-C2 witness. -/
def c2Frame1 : TrackFrameEntry :=
  { frame_id := "f1", frame_index := 1, filename := "1.jpg", gcs_uri := "",
    image_url := "", frame_version := 2, default_status := "unreviewed",
    annotations := [c2AnnB], pending_annotations := 1, completed := false,
    width := none, height := none, accepted_annotations := 0,
    rejected_annotations := 0, abandoned_annotations := 0, abandoned := false }

/-- Concrete track row, for the claim-C2 witness. -/
def c2Track : TrackListItem :=
  { track_tag := "t1", categories := ["person"], primary_class := none,
    person_down := false, status := "active", total_annotations := 2,
    pending_annotations := 1, frame_count := 2, first_frame_index := some 0,
    last_frame_index := some 1, abandoned_from_frame := none,
    completed := false, manually_completed := false }

/-- Concrete client cache, for the claim-C2 witness. -/
def c2Cache : ClientCache :=
  { frames := [c2Frame0, c2Frame1], samples := [], tracks := [c2Track] }

/-- Concrete abandoned annotation in frame 1, for the claim-C3 witness. -/
def c3AnnAband : Annotation :=
  { annotation_id := "b0", track_tag := some "t1", category_name := "person",
    bbox := ⟨0, 0, 5, 5⟩, status := AnnotationStatus.abandoned,
    person_down := none, blur_decision := none, blur_metrics := none }

/-- Concrete accepted annotation in frame 1, for the claim-C3 witness. -/
def c3AnnAcc : Annotation :=
  { annotation_id := "b1", track_tag := some "t1", category_name := "person",
    bbox := ⟨2, 2, 5, 5⟩, status := AnnotationStatus.accepted,
    person_down := none, blur_decision := none, blur_metrics := none }

/-- Concrete track-frame entry at index 0, for the claim-C3 witness. -/
def c3Frame0 : TrackFrameEntry :=
  { frame_id := "g0", frame_index := 0, filename := "0.jpg", gcs_uri := "",
    image_url := "", frame_version := 5, default_status := "unreviewed",
    annotations := [c3AnnAband], pending_annotations := 0, completed := true,
    width := none, height := none, accepted_annotations := 0,
    rejected_annotations := 0, abandoned_annotations := 1, abandoned := true }

/-- Concrete track-frame entry at index 1, for the claim-C3 witness. -/
def c3Frame1 : TrackFrameEntry :=
  { frame_id := "g1", frame_index := 1, filename := "1.jpg", gcs_uri := "",
    image_url := "", frame_version := 4, default_status := "unreviewed",
    annotations := [c3AnnAband, c3AnnAcc], pending_annotations := 0, completed := true,
    width := none, height := none, accepted_annotations := 1,
    rejected_annotations := 0, abandoned_annotations := 1, abandoned := true }

/-- Concrete abandoned-track row, for the claim-C3 witness. -/
def c3Track : TrackListItem :=
  { track_tag := "t1", categories := ["person"], primary_class := none,
    person_down := false, status := "abandoned", total_annotations := 3,
    pending_annotations := 0, frame_count := 2, first_frame_index := some 0,
    last_frame_index := some 1, abandoned_from_frame := some 1,
    completed := false, manually_completed := false }

/-- Concrete client cache, for the claim-C3 witness. -/
def c3Cache : ClientCache :=
  { frames := [c3Frame0, c3Frame1], samples := [], tracks := [c3Track] }

/-- Concrete unreviewed annotation, for the claim-C4 counterexample. -/
def c4UnrevAnn : Annotation :=
  { annotation_id := "u0", track_tag := some "t1", category_name := "person",
    bbox := ⟨0, 0, 2, 2⟩, status := AnnotationStatus.unreviewed,
    person_down := none, blur_decision := none, blur_metrics := none }

/-- Concrete incomplete track row, for claim C4. -/
def c4Track : TrackListItem :=
  { track_tag := "t1", categories := ["person"], primary_class := none,
    person_down := false, status := "active", total_annotations := 1,
    pending_annotations := 1, frame_count := 1, first_frame_index := some 0,
    last_frame_index := some 0, abandoned_from_frame := none,
    completed := false, manually_completed := false }

/-- The claim-C4 track after `mark_complete`'s cache update. -/
def c4TrackDone : TrackListItem := { c4Track with manually_completed := true }

/-- Concrete client cache, for claim C4. -/
def c4Cache : ClientCache := { frames := [], samples := [], tracks := [c4Track] }

/-- Concrete annotation with only a fallback blur decision, for the claim-C10
witness. -/
def c10Ann : Annotation :=
  { annotation_id := "c0", track_tag := some "t1", category_name := "person",
    bbox := ⟨0, 0, 3, 3⟩, status := AnnotationStatus.unreviewed,
    person_down := none, blur_decision := none,
    blur_metrics := some { blur_decision := some BlurDecision.blurry } }

/-- Claim C1: a single-frame save whose claimed `frame_version` differs from
the frame's current `frame_version` fails with `VersionConflict` and leaves
the stored frame — hence every annotation's status and `person_down` value —
unchanged; no partial merge of the submitted updates occurs. -/
theorem c1_version_conflict_save (frame : FrameDoc) (claimedVersion : Nat)
    (updates : List AnnotationUpdate) (h : claimedVersion ≠ frame.frame_version) :
    saveFrameStore frame claimedVersion updates
        = (frame, Except.error SaveError.versionConflict)
      ∧ (saveFrameStore frame claimedVersion updates).1.annotations = frame.annotations := by
  have hbne : (claimedVersion != frame.frame_version) = true := by simp [h]
  refine ⟨?_, ?_⟩ <;> simp [saveFrameStore, saveFrameOp, hbne]

/-- Witness for claim C1: the concrete frame at version 1 rejects a save
claiming version 2 and is returned unchanged. -/
theorem c1_version_conflict_save_witness :
    saveFrameStore c1Frame 2 [c1Update] = (c1Frame, Except.error SaveError.versionConflict) :=
  (c1_version_conflict_save c1Frame 2 [c1Update] (by decide)).1

/-- Claim C6: under correct version chaining, every accepted save returns a
`frame_version` exactly one greater than the version it was submitted with
(the versions returned are `v0+1, v0+2, ...` with nothing skipped and no
regression), and the stored version after `n` saves is `v0 + n`. -/
theorem c6_version_chaining (frame : FrameDoc) (batches : List (List AnnotationUpdate)) :
    (runChainedSaves frame batches).2
        = (List.range batches.length).map (fun i => frame.frame_version + i + 1)
      ∧ (runChainedSaves frame batches).1.frame_version
        = frame.frame_version + batches.length := by
  induction batches generalizing frame with
  | nil => simp [runChainedSaves]
  | cons updates rest ih =>
    have hstep :
        runChainedSaves frame (updates :: rest)
          = ((runChainedSaves
                { frame with
                    annotations := applyAnnUpdates frame.annotations updates,
                    frame_version := frame.frame_version + 1 } rest).1,
              (frame.frame_version + 1)
                :: (runChainedSaves
                      { frame with
                          annotations := applyAnnUpdates frame.annotations updates,
                          frame_version := frame.frame_version + 1 } rest).2) := by
      simp [runChainedSaves, saveFrameOp, bne_self_eq_false]
    have ihApplied := ih
      { frame with
          annotations := applyAnnUpdates frame.annotations updates,
          frame_version := frame.frame_version + 1 }
    refine ⟨?_, ?_⟩
    · rw [hstep]
      simp only [ihApplied.1, List.length_cons, List.range_succ_eq_map, List.map_cons,
        List.map_map, Nat.add_zero]
      congr 1
      refine List.map_congr_left (fun i _ => ?_)
      simp only [Function.comp, Nat.succ_eq_add_one]
      omega
    · rw [hstep, ihApplied.2]
      show frame.frame_version + 1 + rest.length = frame.frame_version + (rest.length + 1)
      omega

/-- Claim C7: every track-state operation preserves the invariant that
`abandoned` tracks carry a set `abandoned_from_frame` and `active` tracks a
null one; abandon establishes `(abandoned, from_frame_index)` together and
recover establishes `(active, null)` together. -/
theorem c7_track_state_invariant (op : TrackOp) (track : TrackDoc)
    (h : trackStateInv track) :
    trackStateInv (applyTrackOp op track)
      ∧ (∀ fromFrameIndex : Nat,
          applyTrackOp (TrackOp.abandonFrom fromFrameIndex) track
            = { track with
                  status := TrackStatus.abandoned,
                  abandoned_from_frame := some fromFrameIndex })
      ∧ (∀ fromFrameIndex : Nat,
          applyTrackOp (TrackOp.recoverFrom fromFrameIndex) track
            = { track with
                  status := TrackStatus.active,
                  abandoned_from_frame := none }) := by
  refine ⟨?_, fun _ => rfl, fun _ => rfl⟩
  cases op with
  | abandonFrom F => simp [applyTrackOp, trackStateInv]
  | acceptFrom F => exact h
  | recoverFrom F => simp [applyTrackOp, trackStateInv]
  | markComplete => simpa [applyTrackOp, trackStateInv] using h
  | markIncomplete => simpa [applyTrackOp, trackStateInv] using h
  | setClass c =>
    by_cases hc : c ∈ TRACK_CLASSES
    · simpa [applyTrackOp, setClassStore, setClassOp, hc, trackStateInv] using h
    · simpa [applyTrackOp, setClassStore, setClassOp, hc, trackStateInv] using h
  | setPersonDown v => simpa [applyTrackOp, trackStateInv] using h

/-- Witness for claim C7: the invariant holds of the concrete active track and
is preserved by abandoning it from frame 3. -/
theorem c7_track_state_invariant_witness :
    trackStateInv c7Track ∧ trackStateInv (applyTrackOp (TrackOp.abandonFrom 3) c7Track) :=
  ⟨by simp [trackStateInv, c7Track],
    (c7_track_state_invariant (TrackOp.abandonFrom 3) c7Track
      (by simp [trackStateInv, c7Track])).1⟩

/-- Claim C8: `set_class` accepts exactly the class names in the fixed
enumeration {gun, tablet, person, face_cover, hat, phone, face}: a member sets
the track's `primary_class`, anything else is rejected with `InvalidClass`
leaving the track entirely unchanged. -/
theorem c8_set_class_enumeration (track : TrackDoc) (className : String) :
    (TRACK_CLASSES.contains className = true →
        setClassStore track className
          = ({ track with primary_class := some className }, Except.ok ()))
      ∧ (TRACK_CLASSES.contains className = false →
        setClassStore track className = (track, Except.error SetClassError.invalidClass))
      ∧ (TRACK_CLASSES.contains className = true ↔
        (className = "gun" ∨ className = "tablet" ∨ className = "person"
          ∨ className = "face_cover" ∨ className = "hat" ∨ className = "phone"
          ∨ className = "face")) := by
  refine ⟨fun h => ?_, fun h => ?_, ?_⟩
  · have hm : className ∈ TRACK_CLASSES := by simpa using h
    simp [setClassStore, setClassOp, hm]
  · have hm : className ∉ TRACK_CLASSES := by simpa using h
    simp [setClassStore, setClassOp, hm]
  · simp [TRACK_CLASSES, List.contains_cons]

/-- Witness for claim C8: "person" is accepted and sets `primary_class`, and
"car" is rejected leaving the concrete track unchanged. -/
theorem c8_set_class_enumeration_witness :
    setClassStore c8Track "person" = ({ c8Track with primary_class := some "person" }, Except.ok ())
      ∧ setClassStore c8Track "car" = (c8Track, Except.error SetClassError.invalidClass) :=
  ⟨(c8_set_class_enumeration c8Track "person").1 (by decide),
    (c8_set_class_enumeration c8Track "car").2.1 (by decide)⟩

/-- Claim C2: the accept sweep sets every annotation of the track-frames
projection lying at `frame_index >= fromIndex` and matching the blur filter to
`accepted` whatever its prior status, leaves every frame at `frame_index <
fromIndex` unchanged, and performs no write on the tracks cache (the track's
status and `abandoned_from_frame` are unchanged). -/
theorem c2_accept_sweep (filter : BlurFilter) (fromIndex : Nat) (cache : ClientCache) :
    (handleAcceptFromFrameCache filter fromIndex cache).tracks = cache.tracks
      ∧ (handleAcceptFromFrameCache filter fromIndex cache).frames
        = cache.frames.map (acceptFrameEntry filter fromIndex)
      ∧ ∀ frame : TrackFrameEntry,
          (frame.frame_index < fromIndex → acceptFrameEntry filter fromIndex frame = frame)
          ∧ (fromIndex ≤ frame.frame_index →
              (acceptFrameEntry filter fromIndex frame).annotations
                  = frame.annotations.map (fun ann =>
                      if blurMatches filter (getAnnotationBlurDecision ann) then
                        { ann with status := AnnotationStatus.accepted }
                      else ann)
                ∧ (acceptFrameEntry filter fromIndex frame).frame_index = frame.frame_index
                ∧ (acceptFrameEntry filter fromIndex frame).frame_version = frame.frame_version) := by
  refine ⟨rfl, rfl, fun frame => ⟨fun hlt => ?_, fun hge => ?_⟩⟩
  · simp [acceptFrameEntry, hlt]
  · have hnlt : ¬ frame.frame_index < fromIndex := not_lt.mpr hge
    have hdec : decide (fromIndex ≤ frame.frame_index) = true := decide_eq_true hge
    refine ⟨?_, ?_, ?_⟩
    · simp [acceptFrameEntry, hnlt, recountFrame, sweepAcceptAnn, hdec]
    · simp [acceptFrameEntry, hnlt, recountFrame]
    · simp [acceptFrameEntry, hnlt, recountFrame]

/-- Witness for claim C2: accepting from frame 1 leaves the tracks cache and
frame 0 unchanged and accepts the unreviewed annotation of frame 1. -/
theorem c2_accept_sweep_witness :
    (handleAcceptFromFrameCache BlurFilter.all 1 c2Cache).tracks = c2Cache.tracks
      ∧ acceptFrameEntry BlurFilter.all 1 c2Frame0 = c2Frame0
      ∧ (acceptFrameEntry BlurFilter.all 1 c2Frame1).annotations
        = [{ c2AnnB with status := AnnotationStatus.accepted }] := by
  have h := c2_accept_sweep BlurFilter.all 1 c2Cache
  refine ⟨h.1, (h.2.2 c2Frame0).1 (by decide), ?_⟩
  rw [((h.2.2 c2Frame1).2 (by decide)).1]
  decide

/-- Claim C3: the recover sweep resets to `unreviewed` exactly those
annotations at `frame_index >= fromIndex` that match the blur filter and are
currently `abandoned`; annotations with any other status (or failing the
filter) are untouched, frames before `fromIndex` are unchanged, and the track
ends with status `active` and `abandoned_from_frame = null`. -/
theorem c3_recover_sweep (selectedTrack : String) (filter : BlurFilter) (fromIndex : Nat)
    (cache : ClientCache) :
    (handleRecoverTrackCache selectedTrack filter fromIndex cache).tracks
        = cache.tracks.map (fun track =>
            if track.track_tag == selectedTrack then
              { track with status := "active", abandoned_from_frame := none }
            else track)
      ∧ (handleRecoverTrackCache selectedTrack filter fromIndex cache).frames
        = cache.frames.map (recoverFrameEntry filter fromIndex)
      ∧ (∀ frame : TrackFrameEntry,
          (frame.frame_index < fromIndex → recoverFrameEntry filter fromIndex frame = frame)
          ∧ (fromIndex ≤ frame.frame_index →
              (recoverFrameEntry filter fromIndex frame).annotations
                = frame.annotations.map (sweepRecoverAnn filter fromIndex frame.frame_index)))
      ∧ ∀ (frameIndex : Nat) (ann : Annotation),
          (ann.status ≠ AnnotationStatus.abandoned →
            sweepRecoverAnn filter fromIndex frameIndex ann = ann)
          ∧ (blurMatches filter (getAnnotationBlurDecision ann) = false →
            sweepRecoverAnn filter fromIndex frameIndex ann = ann)
          ∧ (fromIndex ≤ frameIndex →
              blurMatches filter (getAnnotationBlurDecision ann) = true →
              ann.status = AnnotationStatus.abandoned →
              sweepRecoverAnn filter fromIndex frameIndex ann
                = { ann with status := AnnotationStatus.unreviewed }) := by
  refine ⟨rfl, rfl, fun frame => ⟨fun hlt => ?_, fun hge => ?_⟩,
    fun frameIndex ann => ⟨fun hst => ?_, fun hblur => ?_, fun hge hblur hst => ?_⟩⟩
  · simp [recoverFrameEntry, hlt]
  · have hnlt : ¬ frame.frame_index < fromIndex := not_lt.mpr hge
    simp [recoverFrameEntry, hnlt, recountFrame]
  · simp [sweepRecoverAnn, hst]
  · simp [sweepRecoverAnn, hblur]
  · simp [sweepRecoverAnn, decide_eq_true hge, hblur, hst]

/-- Witness for claim C3: recovering track t1 from frame 1 marks the track
active with no abandonment frame, leaves frame 0 untouched, resets the
abandoned annotation of frame 1 to unreviewed and leaves its accepted
annotation alone. -/
theorem c3_recover_sweep_witness :
    (handleRecoverTrackCache "t1" BlurFilter.all 1 c3Cache).tracks
        = [{ c3Track with status := "active", abandoned_from_frame := none }]
      ∧ recoverFrameEntry BlurFilter.all 1 c3Frame0 = c3Frame0
      ∧ (recoverFrameEntry BlurFilter.all 1 c3Frame1).annotations
        = [{ c3AnnAband with status := AnnotationStatus.unreviewed }, c3AnnAcc]
      ∧ sweepRecoverAnn BlurFilter.all 1 1 c3AnnAcc = c3AnnAcc := by
  have h := c3_recover_sweep "t1" BlurFilter.all 1 c3Cache
  refine ⟨?_, (h.2.2.1 c3Frame0).1 (by decide), ?_, (h.2.2.2 1 c3AnnAcc).1 (by decide)⟩
  · rw [h.1]
    decide
  · rw [(h.2.2.1 c3Frame1).2 (by decide)]
    decide

/-- 55 single-annotation frames of track t1, for the claim-C5 witness. -/
def c5DemoFrames : List FrameDoc :=
  (List.range 55).map (fun i =>
    { frame_id := "", frame_index := i, filename := "", gcs_uri := "", image_url := "",
      frame_version := 1,
      annotations := [{ annotation_id := "", track_tag := some "t1",
                        category_name := "person", bbox := ⟨0, 0, 1, 1⟩,
                        status := AnnotationStatus.unreviewed, person_down := none,
                        blur_decision := none, blur_metrics := none }] })

/-- Counterexample to claim C4 as stated: under the claim's "or
manually_completed" reading a track with one unreviewed annotation and
`manually_completed = true` would have derived completed = true, but the
code's track record keeps `completed = false` there — `handleMarkComplete`'s
cache update sets only `manually_completed` and leaves `completed` false, and
the annotation-derived `trackCompleted` is false; the "Completed" badge comes
from the separate `manually_completed` branch of `getBadge`. -/
theorem c4_completed_counterexample :
    claimDerivedCompleted [c4UnrevAnn] true = true
      ∧ trackCompleted [c4UnrevAnn] = false
      ∧ (handleMarkCompleteCache "t1" c4Cache).tracks = [c4TrackDone]
      ∧ c4TrackDone.completed = false
      ∧ c4TrackDone.manually_completed = true
      ∧ (getBadge c4TrackDone c4TrackDone.pending_annotations c4TrackDone.total_annotations).label
        = "Completed" :=
  ⟨by decide, by decide, by decide, by decide, by decide, by decide⟩

/-- Claim C4 (amended): a track's derived completed state is true iff every
annotation belonging to the track has status ≠ unreviewed, independent of
`manually_completed` (the §8 reading); `mark_complete` / `mark_incomplete`
toggle only `manually_completed` and change no annotation's status, and a
manually-completed non-abandoned track is displayed as "Completed" even when
its derived `completed` flag is false. -/
theorem c4_completed_derivation (anns : List Annotation) (selectedTrack : String)
    (cache : ClientCache) :
    (trackCompleted anns = true ↔ ∀ ann ∈ anns, ann.status ≠ AnnotationStatus.unreviewed)
      ∧ (handleMarkCompleteCache selectedTrack cache).frames = cache.frames
      ∧ (handleMarkCompleteCache selectedTrack cache).samples = cache.samples
      ∧ (handleMarkCompleteCache selectedTrack cache).tracks
        = cache.tracks.map (fun track =>
            if track.track_tag == selectedTrack then
              { track with manually_completed := true }
            else track)
      ∧ (handleMarkIncompleteCache selectedTrack cache).frames = cache.frames
      ∧ (handleMarkIncompleteCache selectedTrack cache).samples = cache.samples
      ∧ (handleMarkIncompleteCache selectedTrack cache).tracks
        = cache.tracks.map (fun track =>
            if track.track_tag == selectedTrack then
              { track with manually_completed := false }
            else track)
      ∧ ∀ track : TrackListItem,
          track.manually_completed = true → (track.status == "abandoned") = false →
          (getBadge track track.pending_annotations track.total_annotations).label
            = "Completed" := by
  refine ⟨?_, rfl, rfl, rfl, rfl, rfl, rfl, fun track hm hst => ?_⟩
  · simp [trackCompleted, List.all_eq_true]
  · simp [getBadge, hst, hm]

/-- Witness for claim C4 (amended): the empty annotation set is derived
complete, `mark_complete` on the concrete cache flips only
`manually_completed`, and the resulting track displays as "Completed". -/
theorem c4_completed_derivation_witness :
    trackCompleted [] = true
      ∧ (handleMarkCompleteCache "t1" c4Cache).tracks = [c4TrackDone]
      ∧ (getBadge c4TrackDone c4TrackDone.pending_annotations c4TrackDone.total_annotations).label
        = "Completed" := by
  have h := c4_completed_derivation ([] : List Annotation) "t1" c4Cache
  refine ⟨h.1.mpr (by simp), ?_, h.2.2.2.2.2.2.2 c4TrackDone (by decide) (by decide)⟩
  rw [h.2.2.2.1]
  decide

/-- JavaScript `Array.prototype.map`-with-index returns a list of the same
length. -/
theorem mapWithIndex_length {α : Type} (f : Nat → α → α) (s : Nat) (l : List α) :
    (mapWithIndex f s l).length = l.length := by
  induction l generalizing s with
  | nil => rfl
  | cons a rest ih => simp [mapWithIndex, ih]

/-- Element lookup through `mapWithIndex`: position `i` holds `f (s + i)`
applied to the original element. -/
theorem mapWithIndex_getElem {α : Type} (f : Nat → α → α) (s : Nat) (l : List α) (i : Nat) :
    (mapWithIndex f s l)[i]? = (l[i]?).map (f (s + i)) := by
  induction l generalizing s i with
  | nil => simp [mapWithIndex]
  | cons a rest ih =>
    cases i with
    | zero => simp [mapWithIndex]
    | succ n =>
      have harith : s + 1 + n = s + (n + 1) := by omega
      simp only [mapWithIndex, List.getElem?_cons_succ]
      rw [ih (s + 1) n, harith]

/-- Claim C9: after a successful single-annotation save,
`updateAnnotationStatus`'s cached track-frames projection changes only the
frame at the targeted list index; within that entry only the annotation list,
the four status tallies and the recomputed `completed = (pending == 0)` flag
change, while `frame_version` and every other field keep their pre-save
values; every other frame entry is returned unchanged. -/
theorem c9_single_save_cache_patch (targetIdx : Nat) (annotationId : String)
    (status : AnnotationStatus) (frames : List TrackFrameEntry) :
    (updateAnnotationStatusFrames targetIdx annotationId status frames).length = frames.length
      ∧ (∀ i : Nat, i ≠ targetIdx →
          (updateAnnotationStatusFrames targetIdx annotationId status frames)[i]? = frames[i]?)
      ∧ (updateAnnotationStatusFrames targetIdx annotationId status frames)[targetIdx]?
        = (frames[targetIdx]?).map (patchFrameStatus annotationId status)
      ∧ ∀ frame : TrackFrameEntry,
          (patchFrameStatus annotationId status frame).frame_version = frame.frame_version
          ∧ (patchFrameStatus annotationId status frame).frame_id = frame.frame_id
          ∧ (patchFrameStatus annotationId status frame).frame_index = frame.frame_index
          ∧ (patchFrameStatus annotationId status frame).filename = frame.filename
          ∧ (patchFrameStatus annotationId status frame).gcs_uri = frame.gcs_uri
          ∧ (patchFrameStatus annotationId status frame).image_url = frame.image_url
          ∧ (patchFrameStatus annotationId status frame).default_status = frame.default_status
          ∧ (patchFrameStatus annotationId status frame).width = frame.width
          ∧ (patchFrameStatus annotationId status frame).height = frame.height
          ∧ (patchFrameStatus annotationId status frame).abandoned = frame.abandoned
          ∧ (patchFrameStatus annotationId status frame).annotations
            = frame.annotations.map (fun ann =>
                if ann.annotation_id == annotationId then { ann with status := status } else ann)
          ∧ (patchFrameStatus annotationId status frame).pending_annotations
            = ((patchFrameStatus annotationId status frame).annotations.filter
                (fun a => a.status == AnnotationStatus.unreviewed)).length
          ∧ (patchFrameStatus annotationId status frame).accepted_annotations
            = ((patchFrameStatus annotationId status frame).annotations.filter
                (fun a => a.status == AnnotationStatus.accepted)).length
          ∧ (patchFrameStatus annotationId status frame).rejected_annotations
            = ((patchFrameStatus annotationId status frame).annotations.filter
                (fun a => a.status == AnnotationStatus.rejected)).length
          ∧ (patchFrameStatus annotationId status frame).abandoned_annotations
            = ((patchFrameStatus annotationId status frame).annotations.filter
                (fun a => a.status == AnnotationStatus.abandoned)).length
          ∧ (patchFrameStatus annotationId status frame).completed
            = ((patchFrameStatus annotationId status frame).pending_annotations == 0) := by
  refine ⟨mapWithIndex_length _ 0 frames, fun i hi => ?_, ?_, fun frame => ?_⟩
  · rw [updateAnnotationStatusFrames, mapWithIndex_getElem]
    simp [hi]
  · rw [updateAnnotationStatusFrames, mapWithIndex_getElem]
    simp
  · refine ⟨rfl, rfl, rfl, rfl, rfl, rfl, rfl, rfl, rfl, rfl, rfl, ?_, ?_, ?_, ?_, rfl⟩ <;>
      simp [patchFrameStatus, recountFrame]

/-- Witness for claim C9: with target index 1, frame 0 of the concrete cache
is returned unchanged, frame 1 is the patched entry, and the patch preserves
`frame_version`. -/
theorem c9_single_save_cache_patch_witness :
    (updateAnnotationStatusFrames 1 "a1" AnnotationStatus.accepted [c2Frame0, c2Frame1])[0]?
        = some c2Frame0
      ∧ (updateAnnotationStatusFrames 1 "a1" AnnotationStatus.accepted [c2Frame0, c2Frame1])[1]?
        = some (patchFrameStatus "a1" AnnotationStatus.accepted c2Frame1)
      ∧ (patchFrameStatus "a1" AnnotationStatus.accepted c2Frame1).frame_version
        = c2Frame1.frame_version := by
  have h := c9_single_save_cache_patch 1 "a1" AnnotationStatus.accepted [c2Frame0, c2Frame1]
  refine ⟨?_, ?_, (h.2.2.2 c2Frame1).1⟩
  · rw [h.2.1 0 (by decide)]
    decide
  · rw [h.2.2.1]
    decide

/-- Claim C10: the effective blur decision is `blur_decision` when non-null,
otherwise `blur_metrics.blur_decision`, otherwise null; a sweep never modifies
an annotation whose effective decision fails the filter (in particular a null
decision under `sharp`/`blurry`), and under filter `all` every annotation at
`frame_index >= fromIndex` qualifies and is rewritten. -/
theorem c10_effective_blur_decision (ann : Annotation) (filter : BlurFilter)
    (fromIndex frameIndex : Nat) :
    (∀ d : BlurDecision, ann.blur_decision = some d → getAnnotationBlurDecision ann = some d)
      ∧ (ann.blur_decision = none →
          getAnnotationBlurDecision ann = ann.blur_metrics.bind (fun m => m.blur_decision))
      ∧ (blurMatches filter (getAnnotationBlurDecision ann) = false →
          sweepAcceptAnn filter fromIndex frameIndex ann = ann
            ∧ sweepRecoverAnn filter fromIndex frameIndex ann = ann)
      ∧ (filter ≠ BlurFilter.all → getAnnotationBlurDecision ann = none →
          blurMatches filter (getAnnotationBlurDecision ann) = false)
      ∧ (∀ d : BlurDecision, getAnnotationBlurDecision ann = some d →
          (blurMatches BlurFilter.sharp (getAnnotationBlurDecision ann) = true
              ↔ d = BlurDecision.sharp)
            ∧ (blurMatches BlurFilter.blurry (getAnnotationBlurDecision ann) = true
              ↔ d = BlurDecision.blurry))
      ∧ blurMatches BlurFilter.all (getAnnotationBlurDecision ann) = true
      ∧ (fromIndex ≤ frameIndex →
          sweepAcceptAnn BlurFilter.all fromIndex frameIndex ann
            = { ann with status := AnnotationStatus.accepted }) := by
  refine ⟨fun d hd => ?_, fun hd => ?_, fun hblur => ⟨?_, ?_⟩, fun hf hnone => ?_,
    fun d hd => ⟨?_, ?_⟩, ?_, fun hge => ?_⟩
  · simp [getAnnotationBlurDecision, hd, Option.orElse]
  · simp [getAnnotationBlurDecision, hd, Option.orElse]
  · simp [sweepAcceptAnn, hblur]
  · simp [sweepRecoverAnn, hblur]
  · cases filter with
    | all => exact absurd rfl hf
    | sharp => simp [blurMatches, hnone]
    | blurry => simp [blurMatches, hnone]
  · rw [hd]
    cases d <;> simp [blurMatches]
  · rw [hd]
    cases d <;> simp [blurMatches]
  · simp [blurMatches]
  · simp [sweepAcceptAnn, blurMatches, decide_eq_true hge]

/-- Witness for claim C10: the concrete annotation with only a fallback
decision is effectively blurry, is untouched by a `sharp` accept sweep, and is
accepted by an `all` sweep in range. -/
theorem c10_effective_blur_decision_witness :
    getAnnotationBlurDecision c10Ann = some BlurDecision.blurry
      ∧ sweepAcceptAnn BlurFilter.sharp 0 5 c10Ann = c10Ann
      ∧ sweepAcceptAnn BlurFilter.all 0 5 c10Ann
        = { c10Ann with status := AnnotationStatus.accepted } := by
  have h := c10_effective_blur_decision c10Ann BlurFilter.sharp 0 5
  refine ⟨?_, (h.2.2.1 (by decide)).1, h.2.2.2.2.2.2 (by decide)⟩
  rw [h.2.1 (by decide)]
  decide

/-- Every qualifying sample records its parent frame's index. -/
theorem mem_qualifyingSamples_frame_index {trackTag : String} {filter : BlurFilter}
    {frames : List FrameDoc} {s : TrackSample}
    (h : s ∈ qualifyingSamples trackTag filter frames) :
    ∃ f ∈ frames, s.frame_index = f.frame_index := by
  induction frames with
  | nil => simp [qualifyingSamples] at h
  | cons frame rest ih =>
    simp only [qualifyingSamples] at h
    rcases List.mem_append.mp h with hl | hr
    · rcases List.mem_map.mp hl with ⟨a, _, rfl⟩
      exact ⟨frame, List.mem_cons_self _ _, rfl⟩
    · rcases ih hr with ⟨f, hf, hs⟩
      exact ⟨f, List.mem_cons_of_mem _ hf, hs⟩

/-- Samples all carrying one frame index are pairwise ordered by it. -/
theorem pairwise_of_const_frame_index (l : List TrackSample) (n : Nat)
    (h : ∀ s ∈ l, s.frame_index = n) :
    l.Pairwise (fun s t => s.frame_index ≤ t.frame_index) := by
  induction l with
  | nil => exact List.Pairwise.nil
  | cons a rest ih =>
    refine List.Pairwise.cons (fun b hb => ?_)
      (ih (fun s hs => h s (List.mem_cons_of_mem _ hs)))
    rw [h a (List.mem_cons_self _ _), h b (List.mem_cons_of_mem _ hb)]

/-- With frames stored in strictly ascending `frame_index` order, the
collected qualifying samples are ordered by ascending `frame_index`. -/
theorem qualifyingSamples_sorted {trackTag : String} {filter : BlurFilter}
    {frames : List FrameDoc}
    (h : frames.Pairwise (fun f g => f.frame_index < g.frame_index)) :
    (qualifyingSamples trackTag filter frames).Pairwise
      (fun s t => s.frame_index ≤ t.frame_index) := by
  induction frames with
  | nil => exact List.Pairwise.nil
  | cons frame rest ih =>
    rcases List.pairwise_cons.mp h with ⟨hhead, hrest⟩
    simp only [qualifyingSamples]
    refine List.pairwise_append.mpr ⟨?_, ih hrest, ?_⟩
    · refine pairwise_of_const_frame_index _ frame.frame_index (fun s hs => ?_)
      rcases List.mem_map.mp hs with ⟨a, _, rfl⟩
      rfl
    · intro a ha b hb
      rcases List.mem_map.mp ha with ⟨x, _, rfl⟩
      rcases mem_qualifyingSamples_frame_index hb with ⟨g, hg, hbg⟩
      show frame.frame_index ≤ b.frame_index
      rw [hbg]
      exact Nat.le_of_lt (hhead g hg)

/-- Claim C5: `track_samples` returns at most `limit` patches, taken as the
first qualifying annotations in ascending `frame_index` order (truncation, not
random sampling), and reports a `total_count` equal to the number of all
qualifying annotations regardless of truncation. -/
theorem c5_track_samples_truncation (frames : List FrameDoc) (trackTag : String)
    (limit : Nat) (filter : BlurFilter)
    (h : frames.Pairwise (fun f g => f.frame_index < g.frame_index)) :
    (trackSamplesOp frames trackTag limit filter).samples
        = (qualifyingSamples trackTag filter frames).take limit
      ∧ (trackSamplesOp frames trackTag limit filter).samples.length
        = min limit (qualifyingSamples trackTag filter frames).length
      ∧ (trackSamplesOp frames trackTag limit filter).total_count
        = (qualifyingSamples trackTag filter frames).length
      ∧ ((trackSamplesOp frames trackTag limit filter).samples).Pairwise
        (fun s t => s.frame_index ≤ t.frame_index) :=
  ⟨rfl, List.length_take limit _, rfl,
    List.Pairwise.sublist (List.take_sublist limit _) (qualifyingSamples_sorted h)⟩

/-- Witness for claim C5: `limit = 20` over 55 qualifying annotations yields
exactly 20 samples and `total_count = 55`. -/
theorem c5_track_samples_truncation_witness :
    (trackSamplesOp c5DemoFrames "t1" 20 BlurFilter.all).samples.length = 20
      ∧ (trackSamplesOp c5DemoFrames "t1" 20 BlurFilter.all).total_count = 55 := by
  have h := c5_track_samples_truncation c5DemoFrames "t1" 20 BlurFilter.all (by decide)
  refine ⟨?_, ?_⟩
  · rw [h.2.1]
    decide
  · rw [h.2.2.1]
    decide

end AutoLabeler
